import Mathlib

/-!
Verification of the AIDE (AI Development Ensemble, Ollama edition) agent server.

The Python sources under `agent-server/` are shallowly embedded here:
strings are lists of characters, dictionaries are association lists, and the
nondeterministic text-completion service is an explicit oracle parameter.
Each embedded definition keeps the name of the source function it models.
-/

namespace AIDE

/-- Program strings are modelled as lists of characters. -/
abbrev Str := List Char

/-- Characters removed by Python's default `str.strip()` (ASCII whitespace). -/
def pyIsSpace (c : Char) : Bool :=
  c = ' ' || c = '\t' || c = '\n' || c = '\r' || c = '\x0b' || c = '\x0c'

/-- Python `s.strip()`: drop whitespace from both ends. -/
def pyStrip (s : Str) : Str :=
  ((s.dropWhile pyIsSpace).reverse.dropWhile pyIsSpace).reverse

/-- Python `s.lower()` (ASCII case folding, as used by the sources). -/
def pyLower (s : Str) : Str := s.map Char.toLower

/-- Python substring test `sub in s`. -/
def pyIn (sub s : Str) : Bool := s.tails.any fun t => List.isPrefixOf sub t

/-- Python `s.startswith(p)`. -/
def pyStartsWith (s p : Str) : Bool := List.isPrefixOf p s

/-- Python `s.endswith(p)`. -/
def pyEndsWith (s p : Str) : Bool := List.isSuffixOf p s

/-- The seven agent-role names, as in `Orchestrator.__init__`. -/
def requirementsEvolver : Str := "requirements_evolver".data

/-- Role name `ux_architect`. -/
def uxArchitect : Str := "ux_architect".data

/-- Role name `ui_designer`. -/
def uiDesigner : Str := "ui_designer".data

/-- Role name `frontend_engineer`. -/
def frontendEngineer : Str := "frontend_engineer".data

/-- Role name `data_architect`. -/
def dataArchitect : Str := "data_architect".data

/-- Role name `api_designer`. -/
def apiDesigner : Str := "api_designer".data

/-- Role name `devops`. -/
def devops : Str := "devops".data

/-- `self.agent_chain` from `Orchestrator.__init__` (orchestrator.py:22-30). -/
def agentChain : List Str :=
  [requirementsEvolver, uxArchitect, uiDesigner, frontendEngineer,
   dataArchitect, apiDesigner, devops]

/-- One value of the per-role `requirements` dictionary.  The readiness gate
and the router consult only the `has_substance` flag stored by
`_extract_requirements_enhanced`, so only that field is modelled. -/
structure ReqEntry where
  hasSubstance : Bool
  deriving DecidableEq, Repr

/-- Lookup of `requirements[agent]` in the association-list model of the
per-project requirements dictionary. -/
def lookupReq (a : Str) (reqs : List (Str × ReqEntry)) : Option ReqEntry :=
  (reqs.find? fun p => p.1 == a).map (·.2)

/-- The count `substantial_agents` computed in `_has_minimal_requirements`
(orchestrator.py:121-124): number of requirement entries whose
`has_substance` flag is set. -/
def substantialCount (reqs : List (Str × ReqEntry)) : Nat :=
  (reqs.filter fun p => p.2.hasSubstance).length

/-- `has_requirements_evolver` from `_has_minimal_requirements`
(orchestrator.py:131-134): the requirements role is present and substantial. -/
def reqEvolverSubstantial (reqs : List (Str × ReqEntry)) : Bool :=
  match lookupReq requirementsEvolver reqs with
  | some r => r.hasSubstance
  | none => false

/-- `Orchestrator._has_minimal_requirements` (orchestrator.py:116-141):
the Generation Readiness Gate. -/
def hasMinimalRequirements (reqs : List (Str × ReqEntry)) : Bool :=
  decide (substantialCount reqs ≥ 2) ||
    (reqEvolverSubstantial reqs && decide (substantialCount reqs ≥ 1)) ||
    decide (substantialCount reqs ≥ 3)

/-- The readiness formula exactly as the spec states it in §4.3:
`can_generate = (count ≥ 2) OR (requirements-role substantial AND count ≥ 1)
OR (count ≥ 3)`. -/
def canGenerateSpec (count : Nat) (reqSubstantial : Bool) : Bool :=
  decide (count ≥ 2) || (reqSubstantial && decide (count ≥ 1)) ||
    decide (count ≥ 3)

/-- C1 counterexample: with exactly one substantial entry, belonging to the
requirements role, the gate returns `true` (can generate), not the
cannot-generate the claim's prose asserts. -/
theorem C1_counterexample :
    substantialCount [(requirementsEvolver, ReqEntry.mk true)] = 1 ∧
    hasMinimalRequirements [(requirementsEvolver, ReqEntry.mk true)] = true := by
  decide

/-- C1 (amended): the Generation Readiness Gate equals the spec's stated
formula over the substantial-role count and the requirements-role substance
flag; consequently, when exactly the requirements role is substantial
(count = 1) the gate returns can-generate, not cannot-generate. -/
theorem C1_gate_formula :
    (∀ reqs, hasMinimalRequirements reqs
        = canGenerateSpec (substantialCount reqs) (reqEvolverSubstantial reqs)) ∧
    (∀ reqs, substantialCount reqs = 1 → reqEvolverSubstantial reqs = true →
        hasMinimalRequirements reqs = true) := by
  constructor
  · intro reqs; rfl
  · intro reqs h1 h2
    simp [hasMinimalRequirements, h1, h2]

/-- Witness for `C1_gate_formula` at a concrete one-entry ledger. -/
theorem C1_gate_formula_witness :
    hasMinimalRequirements [(requirementsEvolver, ReqEntry.mk true)] = true :=
  C1_gate_formula.2 [(requirementsEvolver, ReqEntry.mk true)] (by decide)
    (by decide)

/-- The three "early" roles singled out by `_has_substantial_content`
(orchestrator.py:722). -/
def earlyAgents : List Str := [requirementsEvolver, uxArchitect, uiDesigner]

/-- The question-opening phrases checked by `_has_substantial_content`
(orchestrator.py:727). -/
def questionPhrases : List Str :=
  ["what would".data, "can you".data, "please provide".data]

/-- The `technical_indicators` per-role vocabulary of
`_has_substantial_content` (orchestrator.py:736-741); unknown roles get the
dictionary's default `[]`. -/
def technicalIndicators (agentName : Str) : List Str :=
  if agentName = frontendEngineer then
    ["javascript".data, "framework".data, "component".data, "interaction".data]
  else if agentName = dataArchitect then
    ["database".data, "storage".data, "data".data, "schema".data]
  else if agentName = apiDesigner then
    ["endpoint".data, "api".data, "rest".data, "backend".data]
  else if agentName = devops then
    ["deployment".data, "hosting".data, "server".data, "cloud".data]
  else []

/-- `Orchestrator._has_substantial_content` (orchestrator.py:711-748):
the Substance Classifier. -/
def hasSubstantialContent (response : Str) (agentName : Str) : Bool :=
  if (pyStrip response).length < 20 then false
  else
    let responseLower := pyStrip (pyLower response)
    let responseClean := pyStrip response
    if agentName ∈ earlyAgents then
      let isPureQuestion :=
        pyEndsWith responseClean "?".data &&
          decide (responseClean.length < 80) &&
          (questionPhrases.any fun p => pyIn p responseLower)
      decide (responseClean.length ≥ 30) && !isPureQuestion
    else
      let hasTechnicalContent :=
        (technicalIndicators agentName).any fun kw => pyIn kw responseLower
      decide (responseClean.length ≥ 40) && hasTechnicalContent

/-- The Substance Classifier as claim C5 words it: for the first three chain
roles, substantial iff the stripped length is at least 30 and the reply is
not a short (< 80 chars) pure clarifying question; for the remaining roles,
substantial iff the stripped length is at least 40 and the reply contains a
role-specific technical keyword. -/
def substantialSpec (response : Str) (agentName : Str) : Bool :=
  let clean := pyStrip response
  let lower := pyStrip (pyLower response)
  if agentName ∈ earlyAgents then
    decide (clean.length ≥ 30) &&
      !(pyEndsWith clean "?".data && decide (clean.length < 80) &&
        (questionPhrases.any fun p => pyIn p lower))
  else
    decide (clean.length ≥ 40) &&
      ((technicalIndicators agentName).any fun kw => pyIn kw lower)

/-- C5: replies of fewer than 20 stripped characters are never substantial,
and on every chain role the classifier agrees with the claim's per-role
characterisation (≥ 30 chars and not a pure clarifying question for the first
three roles; ≥ 40 chars plus a role-specific technical keyword for the rest). -/
theorem C5_substance_classifier :
    (∀ r a, (pyStrip r).length < 20 → hasSubstantialContent r a = false) ∧
    (∀ a, a ∈ agentChain → ∀ r, hasSubstantialContent r a = substantialSpec r a) := by
  constructor
  · intro r a h
    simp [hasSubstantialContent, h]
  · intro a _ r
    by_cases h : (pyStrip r).length < 20
    · simp only [hasSubstantialContent, substantialSpec, if_pos h]
      have h30 : ¬ (pyStrip r).length ≥ 30 := by omega
      have h40 : ¬ (pyStrip r).length ≥ 40 := by omega
      split
      · simp [h30]
      · simp [h40]
    · simp only [hasSubstantialContent, substantialSpec, if_neg h]

/-- Witness for `C5_substance_classifier`: a too-short reply is rejected, and
on a concrete (role, reply) pair the classifier matches the specification. -/
theorem C5_substance_classifier_witness :
    hasSubstantialContent "ok".data requirementsEvolver = false ∧
    hasSubstantialContent
        "We will use cloud hosting with a dedicated server for deployment.".data
        devops
      = substantialSpec
          "We will use cloud hosting with a dedicated server for deployment.".data
          devops :=
  ⟨C5_substance_classifier.1 "ok".data requirementsEvolver (by decide),
   C5_substance_classifier.2 devops (by decide)
     "We will use cloud hosting with a dedicated server for deployment.".data⟩

/-- One chat message as stored by `LocalStorage.add_message`
(local_storage.py:92-111): role, text, and the agent attributed to it. -/
structure Message where
  role : Str
  text : Str
  agent : Str
  deriving DecidableEq, Repr

/-- One stored generated-file record as appended by
`LocalStorage.add_generated_file` (local_storage.py:134-153). -/
structure StoredFile where
  path : Str
  contentPreview : Str
  size : Nat
  deriving DecidableEq, Repr

/-- The project document (local_storage.py:26-36), restricted to the fields
the modelled operations read or write. -/
structure ProjectData where
  requirements : List (Str × ReqEntry)
  messages : List Message
  generatedFiles : List StoredFile
  activeAgent : Str
  deriving Repr

/-- A fresh project document as `LocalStorage.create_project` builds it
(local_storage.py:26-36): empty requirements, messages and generated files,
active agent `requirements_evolver`. -/
def newProjectData : ProjectData :=
  { requirements := [], messages := [], generatedFiles := [],
    activeAgent := requirementsEvolver }

/-- `approval_keywords` of `_determine_next_agent_enhanced`
(orchestrator.py:160). -/
def approvalKeywords : List Str :=
  ["approved".data, "perfect".data, "looks good".data, "proceed".data,
   "move forward".data, "next phase".data, "next agent".data,
   "switch to".data]

/-- The `agent_keywords` dictionary of `_determine_next_agent_enhanced`
(orchestrator.py:172-179), in the dictionary's insertion order, which the
keyword loop iterates. -/
def agentKeywordOrder : List (Str × List Str) :=
  [(uiDesigner,
    ["change design".data, "change color".data, "ui design".data, "ui".data]),
   (uxArchitect,
    ["navigate".data, "user flow".data, "ux".data, "experience".data,
     "usability".data, "interface".data]),
   (dataArchitect,
    ["database".data, "data".data, "store".data, "save".data, "storage".data,
     "persist".data]),
   (apiDesigner,
    ["api".data, "backend".data, "server".data, "endpoint".data, "rest".data,
     "json".data]),
   (frontendEngineer,
    ["javascript".data, "react".data, "vue".data, "frontend".data,
     "client".data, "browser".data, "technical".data, "implementation".data]),
   (devops,
    ["deploy".data, "host".data, "server".data, "domain".data,
     "production".data, "cloud".data])]

/-- The `for agent_name, keywords in agent_keywords.items()` loop of
`_determine_next_agent_enhanced` (orchestrator.py:181-184): the first role,
in dictionary order, one of whose keywords occurs in the lowered message. -/
def keywordMatch (messageLower : Str) : Option Str :=
  (agentKeywordOrder.find? fun p => p.2.any fun kw => pyIn kw messageLower).map
    (·.1)

/-- The progress-based tail of `_determine_next_agent_enhanced`
(orchestrator.py:186-206): advance to the next chain role when the current
role has contributed substantially or already owns two messages. -/
def progressSwitch (currentAgent : Str) (pd : ProjectData) : Str :=
  if currentAgent ∈ agentChain then
    let currentIndex := agentChain.indexOf currentAgent
    let currentHasContributed :=
      ((lookupReq currentAgent pd.requirements).map ReqEntry.hasSubstance).getD
        false
    let messageCount :=
      (pd.messages.filter fun m => m.agent == currentAgent).length
    if (currentHasContributed || decide (messageCount ≥ 2)) &&
        decide (currentIndex < agentChain.length - 1) then
      agentChain.getD (currentIndex + 1) currentAgent
    else currentAgent
  else currentAgent

/-- The keyword-then-progress tail reached when no approval override fires
(or when the approval branch falls through). -/
def keywordOrProgress (messageLower currentAgent : Str) (pd : ProjectData) :
    Str :=
  match keywordMatch messageLower with
  | some a => a
  | none => progressSwitch currentAgent pd

/-- `Orchestrator._determine_next_agent_enhanced` (orchestrator.py:154-206):
the Agent Router's next-agent decision. -/
def determineNextAgentEnhanced (currentAgent : Str) (userMessage : Str)
    (pd : ProjectData) : Str :=
  let messageLower := pyLower userMessage
  if approvalKeywords.any fun kw => pyIn kw messageLower then
    if currentAgent = uiDesigner then frontendEngineer
    else if currentAgent = requirementsEvolver then uxArchitect
    else if currentAgent = uxArchitect then frontendEngineer
    else keywordOrProgress messageLower currentAgent pd
  else keywordOrProgress messageLower currentAgent pd

/-- Helper: an in-range `getD` yields a member of the list. -/
theorem getD_mem_of_lt {α : Type} :
    ∀ (l : List α) (i : Nat) (d : α), i < l.length → l.getD i d ∈ l
  | a :: _, 0, _, _ => List.mem_cons_self a _
  | a :: l, i + 1, d, h =>
      List.mem_cons_of_mem a
        (getD_mem_of_lt l i d (by simpa using Nat.lt_of_succ_lt_succ h))

/-- Helper: `progressSwitch` maps chain members to chain members. -/
theorem progressSwitch_mem_chain (current : Str) (pd : ProjectData)
    (h : current ∈ agentChain) : progressSwitch current pd ∈ agentChain := by
  unfold progressSwitch
  rw [if_pos h]
  dsimp only
  split
  · next hcond =>
      have hidx : agentChain.indexOf current < agentChain.length - 1 :=
        of_decide_eq_true ((Bool.and_eq_true _ _).mp hcond).2
      apply getD_mem_of_lt
      have hlen : agentChain.length = 7 := rfl
      omega
  · exact h

/-- Helper: any role produced by the keyword loop is a chain member. -/
theorem keywordMatch_mem_chain {msg a : Str} (h : keywordMatch msg = some a) :
    a ∈ agentChain := by
  unfold keywordMatch at h
  rcases Option.map_eq_some'.mp h with ⟨p, hfind, hpa⟩
  have hp := List.mem_of_find?_eq_some hfind
  subst hpa
  simp only [agentKeywordOrder, List.mem_cons, List.not_mem_nil, or_false]
    at hp
  rcases hp with h | h | h | h | h | h <;> subst h <;> decide

/-- Helper: the Router's next-agent decision maps chain members to chain
members. -/
theorem determineNext_mem_chain (current msg : Str) (pd : ProjectData)
    (h : current ∈ agentChain) :
    determineNextAgentEnhanced current msg pd ∈ agentChain := by
  have hkp : keywordOrProgress (pyLower msg) current pd ∈ agentChain := by
    unfold keywordOrProgress
    cases hm : keywordMatch (pyLower msg) with
    | none => exact progressSwitch_mem_chain current pd h
    | some a => exact keywordMatch_mem_chain hm
  unfold determineNextAgentEnhanced
  dsimp only
  by_cases hap : (approvalKeywords.any fun kw => pyIn kw (pyLower msg)) = true
  · rw [if_pos hap]
    by_cases h1 : current = uiDesigner
    · rw [if_pos h1]; decide
    · rw [if_neg h1]
      by_cases h2 : current = requirementsEvolver
      · rw [if_pos h2]; decide
      · rw [if_neg h2]
        by_cases h3 : current = uxArchitect
        · rw [if_pos h3]; decide
        · rw [if_neg h3]; exact hkp
  · rw [if_neg hap]; exact hkp

/-- C4 counterexample: the message "ui experience" contains keywords of two
non-current roles — "experience" (ux_architect) and "ui" (ui_designer) — and
no approval phrase; the chain's declared order puts ux_architect before
ui_designer, yet the Router returns ui_designer, because the keyword loop
follows the keyword dictionary's order, not the chain's. -/
theorem C4_counterexample :
    determineNextAgentEnhanced dataArchitect "ui experience".data
        newProjectData = uiDesigner ∧
    determineNextAgentEnhanced dataArchitect "ui experience".data
        newProjectData ≠ uxArchitect := by
  decide

/-- C4 (amended): when the message contains no approval phrase, the Router
jumps to the first matching role in the keyword dictionary's declared order
(ui_designer, ux_architect, data_architect, api_designer, frontend_engineer,
devops) — not the first in the chain's declared order. -/
theorem C4_keyword_routing (current msg : Str) (pd : ProjectData) (a : Str)
    (hap : (approvalKeywords.any fun kw => pyIn kw (pyLower msg)) = false)
    (hmatch : keywordMatch (pyLower msg) = some a) :
    determineNextAgentEnhanced current msg pd = a := by
  unfold determineNextAgentEnhanced
  dsimp only
  rw [if_neg (by simp [hap])]
  unfold keywordOrProgress
  rw [hmatch]

/-- Witness for `C4_keyword_routing` at a concrete message matching two
roles' keyword sets. -/
theorem C4_keyword_routing_witness :
    determineNextAgentEnhanced devops "ui experience".data newProjectData
      = uiDesigner :=
  C4_keyword_routing devops "ui experience".data newProjectData uiDesigner
    (by decide) (by decide)

/-- The active agent after a finite sequence of user turns, starting from a
newly created project: each turn applies the Router's next-agent decision to
that turn's message and project snapshot (route_message, orchestrator.py:53-64,
stores the returned agent as the new `active_agent`). -/
def activeAgentAfter (turns : List (Str × ProjectData)) : Str :=
  turns.foldl (fun cur t => determineNextAgentEnhanced cur t.1 t.2)
    newProjectData.activeAgent

/-- C10: the Router never leaves the fixed seven-role chain — the next-agent
function maps any chain member and any message/project to a chain member, and
the active agent after any finite sequence of turns from a new project is
always a chain member. -/
theorem C10_active_agent_chain :
    (∀ current msg pd, current ∈ agentChain →
        determineNextAgentEnhanced current msg pd ∈ agentChain) ∧
    (∀ turns, activeAgentAfter turns ∈ agentChain) := by
  refine ⟨determineNext_mem_chain, ?_⟩
  intro turns
  have general :
      ∀ (l : List (Str × ProjectData)) (c : Str), c ∈ agentChain →
        l.foldl (fun cur t => determineNextAgentEnhanced cur t.1 t.2) c
          ∈ agentChain := by
    intro l
    induction l with
    | nil => intro c hc; exact hc
    | cons t rest ih =>
        intro c hc
        exact ih _ (determineNext_mem_chain c t.1 t.2 hc)
  exact general turns newProjectData.activeAgent (by decide)

/-- Witness for `C10_active_agent_chain` at a concrete chain member. -/
theorem C10_active_agent_chain_witness :
    determineNextAgentEnhanced devops "tell me more".data newProjectData
      ∈ agentChain :=
  C10_active_agent_chain.1 devops "tell me more".data newProjectData
    (by decide)

/-- Python `s.split(sep)` for a one-character separator. -/
def splitOnChar (sep : Char) (s : Str) : List Str :=
  s.foldr
    (fun c acc =>
      match acc with
      | [] => [[c]]
      | g :: gs => if c = sep then [] :: g :: gs else (c :: g) :: gs)
    [[]]

/-- `IntegrationAgent._normalize_file_path` (integration_agent.py:518-527):
map well-known bare filenames to their canonical nested location. -/
def normalizeFilePath (filePath : Str) : Str :=
  if filePath = "style.css".data then "static/css/style.css".data
  else if filePath = "app.js".data then "static/js/app.js".data
  else if filePath = "index.html".data then "templates/index.html".data
  else if filePath = "scripts.js".data then "static/js/app.js".data
  else if filePath = "styles.css".data then "static/css/style.css".data
  else filePath

/-- The `index.html` conflict group of `_resolve_file_conflicts`
(integration_agent.py:531-535). -/
def indexHtmlGroup : List Str :=
  ["index.html".data, "templates/index.html".data]

/-- The `style.css` conflict group (integration_agent.py:533). -/
def styleCssGroup : List Str :=
  ["style.css".data, "static/css/style.css".data, "styles.css".data]

/-- The `app.js` conflict group (integration_agent.py:534). -/
def appJsGroup : List Str :=
  ["app.js".data, "static/js/app.js".data, "scripts.js".data]

/-- The `preferred` filter inside `_resolve_file_conflicts`
(integration_agent.py:543): group members under `templates/` or `static/`. -/
def preferredOf (group : List Str) : List Str :=
  group.filter fun f =>
    pyStartsWith f "templates/".data || pyStartsWith f "static/".data

/-- The conflict branch of one `_resolve_file_conflicts` iteration
(integration_agent.py:541-547): append the group's preferred path when it is
not already resolved. -/
def resolveGroupStep (resolved : List Str) (group : List Str) : List Str :=
  match (preferredOf group).head? with
  | none => resolved
  | some p => if p ∈ resolved then resolved else resolved ++ [p]

/-- One iteration of the `for file_path in file_list` loop of
`_resolve_file_conflicts` (integration_agent.py:539-550). -/
def resolveStep (resolved : List Str) (filePath : Str) : List Str :=
  if filePath ∈ indexHtmlGroup then resolveGroupStep resolved indexHtmlGroup
  else if filePath ∈ styleCssGroup then resolveGroupStep resolved styleCssGroup
  else if filePath ∈ appJsGroup then resolveGroupStep resolved appJsGroup
  else if filePath ∈ resolved then resolved
  else resolved ++ [filePath]

/-- `IntegrationAgent._resolve_file_conflicts` (integration_agent.py:529-552). -/
def resolveFileConflicts (fileList : List Str) : List Str :=
  fileList.foldl resolveStep []

/-- `code_patterns` of `_extract_file_list_deduplicated`
(integration_agent.py:487). -/
def codePatterns : List Str :=
  ["from ".data, "import ".data, "@app".data, "def ".data, "class ".data,
   "<!DOCTYPE".data, "// ".data, "/*".data]

/-- The bracket/operator fragments rejected by `_extract_file_list_deduplicated`
(integration_agent.py:491). -/
def operatorPatterns : List Str :=
  ["(".data, ")".data, "\x7b".data, "\x7d".data, "[".data, "]".data,
   "==".data, "=".data]

/-- `valid_extensions` (integration_agent.py:480). -/
def validExtensions : List Str :=
  [".py".data, ".html".data, ".css".data, ".js".data, ".json".data,
   ".md".data, ".txt".data]

/-- The filesystem-illegal characters rejected at integration_agent.py:502. -/
def badChars : List Char := ['*', '?', '\"', '<', '>', '|']

/-- One iteration of the line loop of `_extract_file_list_deduplicated`
(integration_agent.py:482-506). -/
def extractFileListStep (acc : List Str) (rawLine : Str) : List Str :=
  let line := pyStrip rawLine
  if line.isEmpty then acc
  else if codePatterns.any fun p => pyIn p line then acc
  else if operatorPatterns.any fun p => pyIn p line then acc
  else if pyStartsWith line "#".data || pyIn "://".data line ||
      pyStartsWith line "//".data then acc
  else
    let cleanPath :=
      pyStrip ((line.takeWhile fun c => c ≠ '#').takeWhile fun c => c ≠ '[')
    if !cleanPath.isEmpty &&
        ((validExtensions.any fun ext => pyIn ext cleanPath) ||
          (cleanPath.contains '/' &&
            ((splitOnChar '/' cleanPath).getLastD []).contains '.')) then
      if decide (cleanPath.length < 100) &&
          !(badChars.any fun c => cleanPath.contains c) &&
          !pyEndsWith cleanPath "/".data then
        acc ++ [normalizeFilePath cleanPath]
      else acc
    else acc

/-- `essential_files` (integration_agent.py:510) — the five baseline paths;
also the hard-coded fallback list of `plan_project_structure`
(integration_agent.py:64). -/
def essentialFiles : List Str :=
  ["app.py".data, "requirements.txt".data, "templates/index.html".data,
   "static/css/style.css".data, "static/js/app.js".data]

/-- The final loop of `_extract_file_list_deduplicated`
(integration_agent.py:510-513): append each essential file not already
present. -/
def addEssentials (fileList : List Str) : List Str :=
  essentialFiles.foldl (fun acc e => if e ∈ acc then acc else acc ++ [e])
    fileList

/-- `IntegrationAgent._extract_file_list_deduplicated`
(integration_agent.py:474-516). -/
def extractFileListDeduplicated (response : Str) : List Str :=
  addEssentials (resolveFileConflicts
    ((splitOnChar '\n' (pyStrip response)).foldl extractFileListStep []))

/-- Outcome of one completion-service call: the reply text, or a failure
carrying the exception text. -/
inductive Completion where
  | ok (text : Str)
  | failure (err : Str)
  deriving DecidableEq, Repr

/-- `IntegrationAgent.plan_project_structure` (integration_agent.py:17-64) as
a function of the completion-service outcome: the reply is post-processed by
`_extract_file_list_deduplicated`; on failure the hard-coded minimal baseline
list is returned and no exception escapes. -/
def planProjectStructure (outcome : Completion) : List Str :=
  match outcome with
  | .ok text => extractFileListDeduplicated text
  | .failure _ => essentialFiles

/-- Helper: membership is preserved by the essential-append fold. -/
theorem mem_addEssentials_fold (es : List Str) :
    ∀ (acc : List Str) (a : Str), a ∈ acc →
      a ∈ es.foldl (fun acc e => if e ∈ acc then acc else acc ++ [e]) acc := by
  induction es with
  | nil => intro acc a h; simpa using h
  | cons e rest ih =>
      intro acc a h
      simp only [List.foldl_cons]
      apply ih
      by_cases he : e ∈ acc
      · rw [if_pos he]; exact h
      · rw [if_neg he]; exact List.mem_append_left _ h

/-- Helper: every listed file is present after the essential-append fold. -/
theorem essential_mem_fold :
    ∀ (es acc : List Str) (a : Str), a ∈ es →
      a ∈ es.foldl (fun acc e => if e ∈ acc then acc else acc ++ [e]) acc := by
  intro es
  induction es with
  | nil => intro acc a h; cases h
  | cons e rest ih =>
      intro acc a h
      simp only [List.foldl_cons]
      rcases List.mem_cons.mp h with rfl | h
      · apply mem_addEssentials_fold
        by_cases he : a ∈ acc
        · rw [if_pos he]; exact he
        · rw [if_neg he]; exact List.mem_append_right _ (by simp)
      · exact ih _ _ h

/-- C7: for every completion outcome the Structure Planner's file list
contains all five baseline paths, and on outright failure it is exactly the
baseline list (the failure branch is a total fallback — no exception
escapes planning). -/
theorem C7_planner_baseline :
    (∀ outcome e, e ∈ essentialFiles → e ∈ planProjectStructure outcome) ∧
    (∀ err, planProjectStructure (.failure err) = essentialFiles) := by
  constructor
  · intro outcome e he
    cases outcome with
    | ok text => exact essential_mem_fold essentialFiles _ e he
    | failure err => exact he
  · intro err; rfl

/-- Witness for `C7_planner_baseline` at a garbage completion reply. -/
theorem C7_planner_baseline_witness :
    "app.py".data ∈ planProjectStructure (.ok "def foo():".data) :=
  C7_planner_baseline.1 (.ok "def foo():".data) "app.py".data (by decide)

/-- The non-canonical aliases of the three conflict groups: names the
resolver must never let through. -/
def bareAliases : List Str :=
  ["index.html".data, "style.css".data, "styles.css".data, "app.js".data,
   "scripts.js".data]

/-- Helper: `resolveGroupStep` only grows the resolved list. -/
theorem mem_resolveGroupStep (acc g : List Str) (a : Str) (h : a ∈ acc) :
    a ∈ resolveGroupStep acc g := by
  unfold resolveGroupStep
  cases (preferredOf g).head? with
  | none => exact h
  | some p =>
      dsimp only
      by_cases hp : p ∈ acc
      · rw [if_pos hp]; exact h
      · rw [if_neg hp]; exact List.mem_append_left _ h

/-- Helper: `resolveStep` only grows the resolved list. -/
theorem mem_resolveStep (acc : List Str) (f a : Str) (h : a ∈ acc) :
    a ∈ resolveStep acc f := by
  unfold resolveStep
  split_ifs
  · exact mem_resolveGroupStep acc _ a h
  · exact mem_resolveGroupStep acc _ a h
  · exact mem_resolveGroupStep acc _ a h
  · exact h
  · exact List.mem_append_left _ h

/-- Helper: anything in the output of `resolveGroupStep` was already resolved
or is the group's preferred path. -/
theorem mem_of_mem_resolveGroupStep {acc g : List Str} {a : Str}
    (h : a ∈ resolveGroupStep acc g) :
    a ∈ acc ∨ (preferredOf g).head? = some a := by
  unfold resolveGroupStep at h
  cases hp : (preferredOf g).head? with
  | none => rw [hp] at h; exact Or.inl h
  | some p =>
      rw [hp] at h
      dsimp only at h
      by_cases hm : p ∈ acc
      · rw [if_pos hm] at h; exact Or.inl h
      · rw [if_neg hm] at h
        rcases List.mem_append.mp h with h | h
        · exact Or.inl h
        · simp at h; subst h; exact Or.inr rfl

/-- Helper: `resolveGroupStep` preserves duplicate-freedom. -/
theorem resolveGroupStep_nodup (acc g : List Str) (h : acc.Nodup) :
    (resolveGroupStep acc g).Nodup := by
  unfold resolveGroupStep
  cases (preferredOf g).head? with
  | none => exact h
  | some p =>
      dsimp only
      by_cases hm : p ∈ acc
      · rw [if_pos hm]; exact h
      · rw [if_neg hm]; simp [List.nodup_append, h, hm]

/-- Helper: `resolveStep` preserves duplicate-freedom. -/
theorem resolveStep_nodup (acc : List Str) (f : Str) (h : acc.Nodup) :
    (resolveStep acc f).Nodup := by
  unfold resolveStep
  split_ifs with h1 h2 h3 h4
  · exact resolveGroupStep_nodup _ _ h
  · exact resolveGroupStep_nodup _ _ h
  · exact resolveGroupStep_nodup _ _ h
  · exact h
  · simp [List.nodup_append, h, h4]

/-- Helper: `resolveStep` never introduces a bare alias. -/
theorem resolveStep_no_alias {acc : List Str} {f : Str}
    (hok : ∀ y ∈ acc, y ∉ bareAliases) :
    ∀ y ∈ resolveStep acc f, y ∉ bareAliases := by
  intro y hy
  unfold resolveStep at hy
  split_ifs at hy with h1 h2 h3 h4
  · rcases mem_of_mem_resolveGroupStep hy with h | h
    · exact hok y h
    · have hpref : (preferredOf indexHtmlGroup).head?
          = some "templates/index.html".data := by decide
      rw [hpref] at h
      obtain rfl := Option.some.inj h
      decide
  · rcases mem_of_mem_resolveGroupStep hy with h | h
    · exact hok y h
    · have hpref : (preferredOf styleCssGroup).head?
          = some "static/css/style.css".data := by decide
      rw [hpref] at h
      obtain rfl := Option.some.inj h
      decide
  · rcases mem_of_mem_resolveGroupStep hy with h | h
    · exact hok y h
    · have hpref : (preferredOf appJsGroup).head?
          = some "static/js/app.js".data := by decide
      rw [hpref] at h
      obtain rfl := Option.some.inj h
      decide
  · exact hok y hy
  · rcases List.mem_append.mp hy with h | h
    · exact hok y h
    · simp at h; subst h
      intro hbare
      have hcover : ∀ z ∈ bareAliases,
          z ∈ indexHtmlGroup ∨ z ∈ styleCssGroup ∨ z ∈ appJsGroup := by decide
      rcases hcover y hbare with h | h | h
      · exact h1 h
      · exact h2 h
      · exact h3 h

/-- Helper: the conflict-resolution fold preserves duplicate-freedom. -/
theorem resolve_fold_nodup :
    ∀ (l acc : List Str), acc.Nodup → (l.foldl resolveStep acc).Nodup := by
  intro l
  induction l with
  | nil => intro acc h; simpa using h
  | cons f rest ih =>
      intro acc h
      simp only [List.foldl_cons]
      exact ih _ (resolveStep_nodup acc f h)

/-- Helper: the conflict-resolution fold never introduces a bare alias. -/
theorem resolve_fold_no_alias :
    ∀ (l acc : List Str), (∀ y ∈ acc, y ∉ bareAliases) →
      ∀ y ∈ l.foldl resolveStep acc, y ∉ bareAliases := by
  intro l
  induction l with
  | nil => intro acc hok; simpa using hok
  | cons f rest ih =>
      intro acc hok
      simp only [List.foldl_cons]
      exact ih _ (resolveStep_no_alias hok)

/-- Helper: membership survives the rest of the conflict-resolution fold. -/
theorem resolve_fold_keeps (l : List Str) :
    ∀ (acc : List Str) (c : Str), c ∈ acc → c ∈ l.foldl resolveStep acc := by
  induction l with
  | nil => intro acc c h; simpa using h
  | cons f rest ih =>
      intro acc c h
      simp only [List.foldl_cons]
      exact ih _ _ (mem_resolveStep acc f c h)

/-- Helper: once one step adds the canonical path, the whole fold keeps it. -/
theorem resolve_fold_adds (g : List Str) (c : Str)
    (hstep : ∀ acc x, x ∈ g → c ∈ resolveStep acc x) :
    ∀ (l acc : List Str) (x : Str), x ∈ l → x ∈ g →
      c ∈ l.foldl resolveStep acc := by
  intro l
  induction l with
  | nil => intro acc x hx; cases hx
  | cons f rest ih =>
      intro acc x hx hg
      simp only [List.foldl_cons]
      rcases List.mem_cons.mp hx with rfl | hx'
      · exact resolve_fold_keeps rest _ c (hstep acc x hg)
      · exact ih _ x hx' hg

/-- Helper: the group's preferred path is in the output of
`resolveGroupStep`. -/
theorem canonical_mem_resolveGroupStep (acc g : List Str) (c : Str)
    (h : (preferredOf g).head? = some c) : c ∈ resolveGroupStep acc g := by
  unfold resolveGroupStep
  rw [h]
  dsimp only
  by_cases hm : c ∈ acc
  · rw [if_pos hm]; exact hm
  · rw [if_neg hm]; exact List.mem_append_right _ (by simp)

/-- Helper: a style-group member always puts the canonical stylesheet path in
the step's output. -/
theorem styleGroup_step (acc : List Str) (x : Str) (hx : x ∈ styleCssGroup) :
    "static/css/style.css".data ∈ resolveStep acc x := by
  have hpref : (preferredOf styleCssGroup).head?
      = some "static/css/style.css".data := by decide
  simp only [styleCssGroup, List.mem_cons, List.not_mem_nil, or_false] at hx
  rcases hx with rfl | rfl | rfl <;>
    · unfold resolveStep
      rw [if_neg (by decide), if_pos (by decide)]
      exact canonical_mem_resolveGroupStep _ _ _ hpref

/-- Helper: an index-group member always puts the canonical template path in
the step's output. -/
theorem indexGroup_step (acc : List Str) (x : Str) (hx : x ∈ indexHtmlGroup) :
    "templates/index.html".data ∈ resolveStep acc x := by
  have hpref : (preferredOf indexHtmlGroup).head?
      = some "templates/index.html".data := by decide
  simp only [indexHtmlGroup, List.mem_cons, List.not_mem_nil, or_false] at hx
  rcases hx with rfl | rfl <;>
    · unfold resolveStep
      rw [if_pos (by decide)]
      exact canonical_mem_resolveGroupStep _ _ _ hpref

/-- Helper: a script-group member always puts the canonical script path in
the step's output. -/
theorem appJsGroup_step (acc : List Str) (x : Str) (hx : x ∈ appJsGroup) :
    "static/js/app.js".data ∈ resolveStep acc x := by
  have hpref : (preferredOf appJsGroup).head?
      = some "static/js/app.js".data := by decide
  simp only [appJsGroup, List.mem_cons, List.not_mem_nil, or_false] at hx
  rcases hx with rfl | rfl | rfl <;>
    · unfold resolveStep
      rw [if_neg (by decide), if_neg (by decide), if_pos (by decide)]
      exact canonical_mem_resolveGroupStep _ _ _ hpref

/-- C8: on the input `["style.css", "static/css/style.css"]` conflict
resolution returns exactly `["static/css/style.css"]` — the canonical path
once, never the bare alias; in general the output has no duplicates, never
contains a non-canonical alias, and contains a group's canonical nested path
whenever any member of that group occurs in the input. -/
theorem C8_conflict_resolution :
    resolveFileConflicts ["style.css".data, "static/css/style.css".data]
        = ["static/css/style.css".data] ∧
    (∀ l, (resolveFileConflicts l).Nodup) ∧
    (∀ l y, y ∈ resolveFileConflicts l → y ∉ bareAliases) ∧
    (∀ l x, x ∈ l → x ∈ styleCssGroup →
        "static/css/style.css".data ∈ resolveFileConflicts l) ∧
    (∀ l x, x ∈ l → x ∈ indexHtmlGroup →
        "templates/index.html".data ∈ resolveFileConflicts l) ∧
    (∀ l x, x ∈ l → x ∈ appJsGroup →
        "static/js/app.js".data ∈ resolveFileConflicts l) := by
  refine ⟨by decide, ?_, ?_, ?_, ?_, ?_⟩
  · intro l
    exact resolve_fold_nodup l [] List.nodup_nil
  · intro l y hy
    exact resolve_fold_no_alias l [] (by simp) y hy
  · intro l x hx hg
    exact resolve_fold_adds styleCssGroup _ styleGroup_step l [] x hx hg
  · intro l x hx hg
    exact resolve_fold_adds indexHtmlGroup _ indexGroup_step l [] x hx hg
  · intro l x hx hg
    exact resolve_fold_adds appJsGroup _ appJsGroup_step l [] x hx hg

/-- Witness for `C8_conflict_resolution` on concrete one-element inputs. -/
theorem C8_conflict_resolution_witness :
    "app.py".data ∉ bareAliases ∧
    "static/css/style.css".data ∈ resolveFileConflicts ["styles.css".data] :=
  ⟨C8_conflict_resolution.2.2.1 ["app.py".data] "app.py".data (by decide),
   C8_conflict_resolution.2.2.2.1 ["styles.css".data] "styles.css".data
     (by decide) (by decide)⟩

/-- ASCII letter test, the `[a-zA-Z]` character class. -/
def isAsciiLetter (c : Char) : Bool :=
  ('a' ≤ c && c ≤ 'z') || ('A' ≤ c && c ≤ 'Z')

/-- First fence-removal pass of `_extract_pure_code_enhanced`
(integration_agent.py:327), written with a step-count argument so that the
recursion is structural: delete every occurrence of three backticks followed
by a (case-insensitive) letter run and an optional newline.  Every step
shortens the list by at least one character, so with `fuel` at least the
list's length the fuel never runs out. -/
def stripFencesAux : Nat → Str → Str
  | 0, s => s
  | _ + 1, [] => []
  | fuel + 1, '`' :: '`' :: '`' :: rest =>
      let afterLang := rest.dropWhile isAsciiLetter
      let afterNl := if afterLang.head? = some '\n' then afterLang.tail
        else afterLang
      stripFencesAux fuel afterNl
  | fuel + 1, c :: rest => c :: stripFencesAux fuel rest

/-- The fence-removal pass at its fuel bound: equivalent to the unbounded
scan, since each step consumes at least one character. -/
def stripFences (s : Str) : Str := stripFencesAux s.length s

/-- Second fence-removal pass (integration_agent.py:328): delete any leftover
triple backticks. -/
def stripTicks : Str → Str
  | '`' :: '`' :: '`' :: rest => stripTicks rest
  | c :: rest => c :: stripTicks rest
  | [] => []

/-- The leading-prose prefixes skipped by `_extract_pure_code_enhanced`
(integration_agent.py:343). -/
def leadingProsePrefixes : List Str :=
  ["this is".data, "here is".data, "the following".data, "sure,".data,
   "certainly,".data]

/-- The line loop of `_extract_pure_code_enhanced`
(integration_agent.py:332-349): drop blank lines everywhere and prose lines
before the first code-looking line. -/
def extractLineLoop : List Str → Bool → List Str
  | [], _ => []
  | line :: rest, found =>
      let stripped := pyStrip line
      if stripped.isEmpty then extractLineLoop rest found
      else if !found &&
          ((leadingProsePrefixes.any fun p =>
              pyStartsWith (pyLower stripped) p) &&
            !stripped.contains '\x7b' && !stripped.contains '<' &&
            !pyIn "import".data stripped) then
        extractLineLoop rest found
      else line :: extractLineLoop rest true

/-- `IntegrationAgent._extract_pure_code_enhanced`
(integration_agent.py:321-357). -/
def extractPureCodeEnhanced (rawResponse : Str) : Str :=
  if rawResponse.isEmpty then []
  else
    let clean := stripTicks (stripFences rawResponse)
    let lines := splitOnChar '\n' clean
    let result :=
      pyStrip (List.intercalate "\n".data (extractLineLoop lines false))
    if result.isEmpty || decide (result.length < 10) then pyStrip rawResponse
    else result

/-- `IntegrationAgent._is_valid_python_content_trusted`
(integration_agent.py:378-407). -/
def iaValidPython (content filePath : Str) : Bool :=
  let contentLower := pyLower content
  if filePath = "app.py".data then
    (pyIn "flask".data contentLower || pyIn "@app".data content ||
      pyIn "render_template".data content ||
      (pyIn "flask".data contentLower && pyIn "import".data content) ||
      pyIn "from flask".data content) ||
      decide ((pyStrip content).length > 100)
  else if filePath = "requirements.txt".data then
    (content.contains '=' || content.contains '>' || content.contains '<' ||
      content.contains '\n') && decide ((pyStrip content).length > 5)
  else
    (pyIn "import ".data content || pyIn "def ".data content ||
      pyIn "class ".data content || pyIn "from ".data content ||
      pyIn "print(".data content || pyIn "return ".data content) ||
      decide ((pyStrip content).length > 50)

/-- `IntegrationAgent._is_valid_html_content_trusted`
(integration_agent.py:409-421). -/
def iaValidHtml (content : Str) : Bool :=
  let contentLower := pyLower content
  (pyIn "<!doctype".data contentLower || pyIn "<html".data contentLower ||
    pyIn "<head".data contentLower || pyIn "<body".data contentLower ||
    pyIn "<div".data content || pyIn "<p>".data content ||
    pyIn "<h1".data content || pyIn "<form".data content) &&
    content.contains '<' && content.contains '>'

/-- The six style words shared by both CSS validators
(integration_agent.py:433, project_builder.py:195). -/
def cssWords : List Str :=
  ["color".data, "font".data, "margin".data, "padding".data, "width".data,
   "height".data]

/-- `IntegrationAgent._is_valid_css_content_trusted`
(integration_agent.py:423-439). -/
def iaValidCss (content : Str) : Bool :=
  if content.isEmpty || decide ((pyStrip content).length < 10) then false
  else
    let cleanContent := pyStrip content
    let hasAnyCss :=
      (cleanContent.contains '\x7b' && cleanContent.contains '\x7d') ||
        (cleanContent.contains ':' || cleanContent.contains ';' ||
          cleanContent.contains '#' || cleanContent.contains '.') ||
        (cssWords.any fun w => pyIn w (pyLower cleanContent))
    let balancedBraces :=
      decide (cleanContent.count '\x7b' = cleanContent.count '\x7d')
    hasAnyCss || (balancedBraces && decide (cleanContent.length > 25))

/-- `IntegrationAgent._is_valid_javascript_content_trusted`
(integration_agent.py:441-459). -/
def iaValidJs (content : Str) : Bool :=
  let contentLower := pyLower content
  let jsIndicators :=
    pyIn "function".data content || pyIn "const ".data content ||
      pyIn "let ".data content || pyIn "document.".data content ||
      pyIn "addeventlistener".data contentLower ||
      pyIn "getelementbyid".data contentLower ||
      pyIn "fetch".data content || pyIn "api".data contentLower
  let noFrameworks :=
    !(["import react".data, "from react".data, "vue".data, "angular".data].any
      fun fw => pyIn fw contentLower)
  (jsIndicators || decide ((pyStrip content).length > 50)) && noFrameworks

/-- `IntegrationAgent._is_valid_file_content_trusted`
(integration_agent.py:359-376). -/
def isValidFileContentTrusted (content filePath : Str) : Bool :=
  if content.isEmpty || decide ((pyStrip content).length < 15) then false
  else if pyEndsWith filePath ".py".data then iaValidPython content filePath
  else if pyEndsWith filePath ".html".data then iaValidHtml content
  else if pyEndsWith filePath ".css".data then iaValidCss content
  else if pyEndsWith filePath ".js".data then iaValidJs content
  else if pyEndsWith filePath ".txt".data || pyEndsWith filePath ".md".data
    then decide ((pyStrip content).length > 5)
  else decide ((pyStrip content).length > 10)

/-- Match of the regex `[a-zA-Z-]+\s*:\s*[^;]+;` anchored at the start of the
list (project_builder.py:196): a property-name run, optional whitespace, a
colon, then at least one non-semicolon character before a semicolon. -/
def cssPropAt (s : Str) : Bool :=
  let nameRun := s.takeWhile fun c => isAsciiLetter c || c = '-'
  if nameRun.isEmpty then false
  else
    match (s.drop nameRun.length).dropWhile pyIsSpace with
    | ':' :: rest =>
        match rest with
        | [] => false
        | c :: cs => c ≠ ';' && cs.contains ';'
    | _ => false

/-- `re.search` of the CSS property pattern: a match at any position. -/
def cssPropSearch (s : Str) : Bool := s.tails.any cssPropAt

/-- Match of the regex `[.#][a-zA-Z][^{]*\x7b` anchored at the start of the
list (project_builder.py:197): a selector sigil, a letter, then an opening
brace later on. -/
def cssSelectorAt : Str → Bool
  | c1 :: c2 :: rest =>
      (c1 = '.' || c1 = '#') && isAsciiLetter c2 && rest.contains '\x7b'
  | _ => false

/-- `re.search` of the CSS selector pattern: a match at any position. -/
def cssSelectorSearch (s : Str) : Bool := s.tails.any cssSelectorAt

/-- `ProjectBuilder._is_valid_python_content_trusted`
(project_builder.py:126-164). -/
def pbValidPython (content filePath : Str) : Bool :=
  let contentLower := pyLower content
  if filePath = "app.py".data then
    pyIn "flask".data contentLower || pyIn "@app.route".data content ||
      pyIn "render_template".data content || pyIn "from flask".data content ||
      pyIn "import flask".data content
  else if filePath = "requirements.txt".data then
    decide ((pyStrip content).length > 5) &&
      (content.contains '=' || content.contains '>' || content.contains '<' ||
        content.contains '\n')
  else
    (pyIn "import ".data content || pyIn "def ".data content ||
      pyIn "class ".data content || pyIn "from ".data content ||
      pyIn "print(".data content || pyIn "return ".data content) ||
      decide ((pyStrip content).length > 50)

/-- `ProjectBuilder._is_valid_html_content_trusted`
(project_builder.py:166-181). -/
def pbValidHtml (content : Str) : Bool :=
  let contentLower := pyLower content
  (pyIn "<!doctype".data contentLower || pyIn "<html".data contentLower ||
    pyIn "<head".data contentLower || pyIn "<body".data contentLower ||
    pyIn "<div".data content || pyIn "<p>".data content ||
    pyIn "<h1".data content) &&
    content.contains '<' && content.contains '>'

/-- `ProjectBuilder._is_valid_css_content_trusted`
(project_builder.py:183-207). -/
def pbValidCss (content : Str) : Bool :=
  if content.isEmpty || decide ((pyStrip content).length < 10) then false
  else
    let cleanContent := pyStrip content
    let hasAnyCss :=
      (cleanContent.contains '\x7b' && cleanContent.contains '\x7d') ||
        (cleanContent.contains ':' || cleanContent.contains ';' ||
          cleanContent.contains '#' || cleanContent.contains '.') ||
        (cssWords.any fun w => pyIn w (pyLower cleanContent)) ||
        cssPropSearch cleanContent || cssSelectorSearch cleanContent
    let balancedBraces :=
      decide (cleanContent.count '\x7b' = cleanContent.count '\x7d')
    hasAnyCss || (balancedBraces && decide (cleanContent.length > 20))

/-- `ProjectBuilder._is_valid_javascript_content_trusted`
(project_builder.py:209-231). -/
def pbValidJs (content : Str) : Bool :=
  let contentLower := pyLower content
  let jsIndicators :=
    pyIn "function".data content || pyIn "const ".data content ||
      pyIn "let ".data content || pyIn "document.".data content ||
      pyIn "addeventlistener".data contentLower ||
      pyIn "getelementbyid".data contentLower ||
      pyIn "queryselector".data contentLower
  let noFrameworks :=
    !(["import react".data, "from react".data, "vue".data, "angular".data].any
      fun fw => pyIn fw contentLower)
  (jsIndicators || decide ((pyStrip content).length > 50)) && noFrameworks

/-- `ProjectBuilder._is_valid_generated_content_trusted`
(project_builder.py:106-124): the advisory per-extension validator consulted
by `generate_project`. -/
def isValidGeneratedContentTrusted (content filePath : Str) : Bool :=
  if content.isEmpty || decide ((pyStrip content).length < 5) then false
  else if pyEndsWith filePath ".py".data then pbValidPython content filePath
  else if pyEndsWith filePath ".html".data then pbValidHtml content
  else if pyEndsWith filePath ".css".data then pbValidCss content
  else if pyEndsWith filePath ".js".data then pbValidJs content
  else if pyEndsWith filePath ".txt".data || pyEndsWith filePath ".md".data
    then decide ((pyStrip content).length > 3)
  else decide ((pyStrip content).length > 5)

/-- The placeholder text returned by `generate_file_content_with_context` on
a failed completion call (integration_agent.py:95). -/
def errorPlaceholder (filePath err : Str) : Str :=
  "# Error generating ".data ++ filePath ++ ". Please try again.\n# ".data ++
    err

/-- `IntegrationAgent.generate_file_content_with_context`
(integration_agent.py:66-95) as a function of the completion outcome: on
success the reply is cleaned by `_extract_pure_code_enhanced` and the
advisory validator's verdict is computed (for logging) without altering the
result; on failure the explanatory placeholder is returned and no exception
escapes. -/
def generateFileContentWithContext (filePath : Str) (outcome : Completion) :
    Str :=
  match outcome with
  | .ok raw =>
      let cleanCode := extractPureCodeEnhanced raw
      let _validated := isValidFileContentTrusted cleanCode filePath
      cleanCode
  | .failure err => errorPlaceholder filePath err

/-- The extension as computed by `_get_file_type` and friends
(project_builder.py:562-584): the lowered last dot-separated component. -/
def fileExt (filePath : Str) : Str :=
  pyLower ((splitOnChar '.' filePath).getLastD [])

/-- `ProjectBuilder._get_file_type` (project_builder.py:562-568). -/
def getFileType (filePath : Str) : Str :=
  let ext := fileExt filePath
  if ext = "py".data then "python".data
  else if ext = "html".data then "html".data
  else if ext = "css".data then "stylesheet".data
  else if ext = "js".data then "javascript".data
  else if ext = "json".data then "json".data
  else if ext = "md".data then "markdown".data
  else if ext = "txt".data then "text".data
  else "text".data

/-- `ProjectBuilder._get_file_icon` (project_builder.py:570-576). -/
def getFileIcon (filePath : Str) : Str :=
  let ext := fileExt filePath
  if ext = "py".data then "🐍".data
  else if ext = "html".data then "🌐".data
  else if ext = "css".data then "🎨".data
  else if ext = "js".data then "📜".data
  else if ext = "json".data then "📋".data
  else if ext = "md".data then "📝".data
  else if ext = "txt".data then "📄".data
  else "📄".data

/-- `ProjectBuilder._get_file_language` (project_builder.py:578-584). -/
def getFileLanguage (filePath : Str) : Str :=
  let ext := fileExt filePath
  if ext = "py".data then "python".data
  else if ext = "html".data then "html".data
  else if ext = "css".data then "css".data
  else if ext = "js".data then "javascript".data
  else if ext = "json".data then "json".data
  else if ext = "md".data then "markdown".data
  else "text".data

/-- The `file_data` dictionary built for each generated file
(project_builder.py:81-88). -/
structure FileRecord where
  path : Str
  content : Str
  size : Nat
  ftype : Str
  icon : Str
  language : Str
  deriving DecidableEq, Repr

/-- Build one `file_data` record (project_builder.py:81-88). -/
def mkFileRecord (filePath content : Str) : FileRecord :=
  { path := filePath, content := content, size := content.length,
    ftype := getFileType filePath, icon := getFileIcon filePath,
    language := getFileLanguage filePath }

/-- The per-file loop of `ProjectBuilder.generate_project`
(project_builder.py:54-97), indexed so that `oracle i` is the completion
outcome of the i-th file's call; the advisory validator's verdict is
computed (for logging) and discarded, and filesystem writes are assumed to
succeed (they lie outside the completion-service boundary the claims are
about). -/
def generateProjectLoop :
    List Str → Nat → (Nat → Completion) → List FileRecord
  | [], _, _ => []
  | filePath :: rest, i, oracle =>
      let content := generateFileContentWithContext filePath (oracle i)
      let _validated := isValidGeneratedContentTrusted content filePath
      mkFileRecord filePath content :: generateProjectLoop rest (i + 1) oracle

/-- `ProjectBuilder.generate_project` (project_builder.py:31-104) restricted
to its generation loop: one record per planned file. -/
def generateProject (plan : List Str) (oracle : Nat → Completion) :
    List FileRecord :=
  generateProjectLoop plan 0 oracle

/-- Helper: the loop returns exactly the planned paths, in order. -/
theorem generateProjectLoop_paths :
    ∀ (plan : List Str) (i : Nat) (oracle : Nat → Completion),
      (generateProjectLoop plan i oracle).map FileRecord.path = plan := by
  intro plan
  induction plan with
  | nil => intro i oracle; rfl
  | cons p rest ih =>
      intro i oracle
      simp only [generateProjectLoop, List.map_cons, mkFileRecord]
      exact congrArg (p :: ·) (ih (i + 1) oracle)

/-- Helper: the j-th record of the loop is built from the j-th planned path
and the (i+j)-th completion outcome. -/
theorem generateProjectLoop_get :
    ∀ (plan : List Str) (j i : Nat) (oracle : Nat → Completion) (p : Str),
      plan.get? j = some p →
      (generateProjectLoop plan i oracle).get? j
        = some (mkFileRecord p
            (generateFileContentWithContext p (oracle (i + j)))) := by
  intro plan
  induction plan with
  | nil => intro j i oracle p h; cases h
  | cons q rest ih =>
      intro j i oracle p h
      cases j with
      | zero =>
          simp only [List.get?] at h
          obtain rfl := Option.some.inj h
          simp [generateProjectLoop]
      | succ j' =>
          simp only [List.get?] at h
          have := ih j' (i + 1) oracle p h
          simpa [generateProjectLoop, Nat.add_assoc, Nat.add_comm 1 j']
            using this

/-- C2 counterexample: with a one-file plan whose completion call fails, the
run still returns one (placeholder) record, so the returned count equals the
planned count N and is not strictly less than N. -/
theorem C2_counterexample :
    (generateProject ["app.py".data] fun _ => .failure "boom".data).length = 1
      ∧ ¬ ((generateProject ["app.py".data]
            fun _ => .failure "boom".data).length
          < ["app.py".data].length) := by
  constructor
  · rfl
  · have h1 :
        (generateProject ["app.py".data]
          fun _ => .failure "boom".data).length = 1 := rfl
    intro h
    rw [h1] at h
    exact absurd h (by decide)

/-- C2 (amended): a completion failure for file k never aborts the run and
never drops a file — the run returns exactly one record per planned file in
plan order (count = N), and the k-th record's content is the visible
explanatory placeholder carrying the error text. -/
theorem C2_generation_error_handling :
    (∀ plan oracle,
        (generateProject plan oracle).map FileRecord.path = plan) ∧
    (∀ plan oracle i p e, plan.get? i = some p → oracle i = .failure e →
        (generateProject plan oracle).get? i
          = some (mkFileRecord p (errorPlaceholder p e))) := by
  constructor
  · intro plan oracle
    exact generateProjectLoop_paths plan 0 oracle
  · intro plan oracle i p e hget hfail
    have := generateProjectLoop_get plan i 0 oracle p hget
    rw [Nat.zero_add] at this
    unfold generateProject
    rw [this, hfail]
    rfl

/-- Witness for `C2_generation_error_handling`: a two-file plan whose second
call fails yields the placeholder record at index 1. -/
theorem C2_generation_error_handling_witness :
    (generateProject ["app.py".data, "notes.txt".data]
        fun n => if n = 1 then .failure "ollama down".data
          else .ok "from flask import Flask".data).get? 1
      = some (mkFileRecord "notes.txt".data
          (errorPlaceholder "notes.txt".data "ollama down".data)) :=
  C2_generation_error_handling.2 ["app.py".data, "notes.txt".data] _ 1
    "notes.txt".data "ollama down".data (by decide) (by decide)

/-- C6: the advisory validator never blocks acceptance — whenever the
completion call for file k succeeds, the k-th returned record carries
exactly the content extracted from the raw reply and the file stays in the
run's output, even when the validator rejects that content. -/
theorem C6_advisory_validator :
    ∀ plan oracle i p raw,
      plan.get? i = some p → oracle i = .ok raw →
      isValidGeneratedContentTrusted (extractPureCodeEnhanced raw) p
        = false →
      (generateProject plan oracle).get? i
        = some (mkFileRecord p (extractPureCodeEnhanced raw)) := by
  intro plan oracle i p raw hget hok _hval
  have := generateProjectLoop_get plan i 0 oracle p hget
  rw [Nat.zero_add] at this
  unfold generateProject
  rw [this, hok]
  rfl

/-- Witness for `C6_advisory_validator`: prose content that every `app.py`
heuristic rejects is still stored verbatim. -/
theorem C6_advisory_validator_witness :
    (generateProject ["app.py".data]
        fun _ => .ok "just some plain text here".data).get? 0
      = some (mkFileRecord "app.py".data
          (extractPureCodeEnhanced "just some plain text here".data)) :=
  C6_advisory_validator ["app.py".data] _ 0 "app.py".data
    "just some plain text here".data (by decide) (by decide) (by decide)

/-- Build the stored `file_data` entry of `add_generated_file`
(local_storage.py:138-143): a bounded content preview plus the size. -/
def mkStoredFile (filePath content : Str) : StoredFile :=
  { path := filePath,
    contentPreview :=
      if decide (content.length > 500) then content.take 500 ++ "...".data
      else content,
    size := content.length }

/-- `LocalStorage.add_generated_file` (local_storage.py:134-153): append one
record to the document's `generated_files` list. -/
def addGeneratedFile (pd : ProjectData) (filePath content : Str) :
    ProjectData :=
  { pd with
    generatedFiles := pd.generatedFiles ++ [mkStoredFile filePath content] }

/-- The storage loop of `AIDEServer.generate_project_code` (main.py:217-222):
store every record of a generation run via `add_generated_file`. -/
def storeGeneratedFiles (pd : ProjectData) (records : List FileRecord) :
    ProjectData :=
  records.foldl (fun d r => addGeneratedFile d r.path r.content) pd

/-- A one-record generation run used in the C3 counterexample. -/
def run1Record : FileRecord :=
  mkFileRecord "app.py".data "from flask import Flask".data

/-- A second one-record generation run used in the C3 counterexample. -/
def run2Record : FileRecord := mkFileRecord "app.py".data "import flask".data

/-- C3 counterexample: after two successive runs of one file each, the
project document holds two stored records — the later run appended to, and
did not replace, the prior run's set, so the stored set is not the later
run's output. -/
theorem C3_counterexample :
    ((storeGeneratedFiles (storeGeneratedFiles newProjectData [run1Record])
        [run2Record]).generatedFiles).length = 2 ∧
    (storeGeneratedFiles (storeGeneratedFiles newProjectData [run1Record])
        [run2Record]).generatedFiles
      ≠ (storeGeneratedFiles newProjectData [run2Record]).generatedFiles := by
  decide

/-- C3 (amended): storing a generation run appends its records — after the
later run the document's `generated_files` list is the prior list followed by
the later run's records (the on-disk source tree is replaced, but the stored
record list is additive, not idempotent-by-replacement). -/
theorem C3_store_appends :
    ∀ pd records,
      (storeGeneratedFiles pd records).generatedFiles
        = pd.generatedFiles ++
            records.map fun r => mkStoredFile r.path r.content := by
  intro pd records
  induction records generalizing pd with
  | nil => simp [storeGeneratedFiles]
  | cons r rest ih =>
      show (storeGeneratedFiles (addGeneratedFile pd r.path r.content)
          rest).generatedFiles = _
      rw [ih]
      simp [addGeneratedFile]

/-- The storage and transport effects a server handler can perform; one
constructor per operation of main.py that the modelled handlers invoke. -/
inductive ServerEffect where
  | addMessage (role text : Str)
  | setActiveAgent (agent : Str)
  | sendAgentResponse (text agent : Str)
  | sendGenerationStatus (canGenerate : Bool)
  | sendGenerationStarted
  | runGenerationPipeline
  | sendCodeGenerated
  | sendGenerationFailed
  | sendError (msg : Str)
  deriving DecidableEq, Repr

/-- The result dictionary of `Orchestrator.route_message`
(orchestrator.py:82-86). -/
structure RouteResult where
  message : Str
  agent : Str
  shouldGenerate : Bool
  deriving Repr

/-- `Orchestrator.route_message` (orchestrator.py:53-86), with the agent's
reply supplied as an oracle parameter: the returned `should_generate` is the
literal `False` of orchestrator.py:80. -/
def routeMessage (pd : ProjectData) (userMessage agentReply : Str) :
    RouteResult :=
  let nextAgent := determineNextAgentEnhanced pd.activeAgent userMessage pd
  { message := agentReply, agent := nextAgent, shouldGenerate := false }

/-- `AIDEServer.handle_user_message` (main.py:106-141) as its sequence of
storage/transport effects, with the agent reply supplied as an oracle: store
the user message, route, store and send the reply, then send a readiness
status — and nothing else. -/
def handleUserMessageEffects (pd : ProjectData) (userMessage agentReply : Str) :
    List ServerEffect :=
  let rr := routeMessage pd userMessage agentReply
  [ServerEffect.addMessage "user".data userMessage] ++
    (if rr.agent ≠ pd.activeAgent then [ServerEffect.setActiveAgent rr.agent]
      else []) ++
    [ServerEffect.addMessage "agent".data rr.message,
     ServerEffect.sendAgentResponse rr.message rr.agent,
     ServerEffect.sendGenerationStatus
       (hasMinimalRequirements pd.requirements)]

/-- `AIDEServer.handle_generate_code` (main.py:159-190) as its effect
sequence: the explicit generate-code request runs the pipeline only when the
readiness gate passes, else reports a structured failure. -/
def handleGenerateCodeEffects (pd : ProjectData) : List ServerEffect :=
  if hasMinimalRequirements pd.requirements then
    [ServerEffect.sendGenerationStarted, ServerEffect.runGenerationPipeline,
     ServerEffect.sendCodeGenerated]
  else [ServerEffect.sendGenerationFailed]

/-- C9: processing a user message never invokes the generation pipeline —
the pipeline effect never occurs among a user turn's effects and
`route_message` always returns `should_generate = false` — while the
explicit generate-code request does run the pipeline once the gate passes. -/
theorem C9_no_auto_generation :
    (∀ pd userMessage agentReply,
        ServerEffect.runGenerationPipeline ∉
          handleUserMessageEffects pd userMessage agentReply) ∧
    (∀ pd userMessage agentReply,
        (routeMessage pd userMessage agentReply).shouldGenerate = false) ∧
    (∀ pd, hasMinimalRequirements pd.requirements = true →
        ServerEffect.runGenerationPipeline ∈ handleGenerateCodeEffects pd) := by
  refine ⟨?_, ?_, ?_⟩
  · intro pd m r
    unfold handleUserMessageEffects
    dsimp only
    split <;> simp
  · intro pd m r
    rfl
  · intro pd h
    unfold handleGenerateCodeEffects
    rw [if_pos h]
    simp

/-- Witness for `C9_no_auto_generation` on a project with two substantial
roles: the explicit request reaches the pipeline. -/
theorem C9_no_auto_generation_witness :
    ServerEffect.runGenerationPipeline ∈ handleGenerateCodeEffects
      { newProjectData with
        requirements := [(requirementsEvolver, ReqEntry.mk true),
          (uxArchitect, ReqEntry.mk true)] } :=
  C9_no_auto_generation.2.2
    { newProjectData with
      requirements := [(requirementsEvolver, ReqEntry.mk true),
        (uxArchitect, ReqEntry.mk true)] } (by decide)

end AIDE
